import Mathlib

/-!
Verification of the live-session orchestrator of the `memo` repository.

The repository contains two parallel implementations of the orchestrator hook:

* `src/hooks/useLiveSession.ts` — the original chunk-polling variant
  (a `setInterval` loop uploads accumulated audio chunks to the Groq
  transcription endpoint every 3 seconds); modelled below in namespace
  `Polling`.
* `src/hooks/Grok_useLiveSession.ts` — the "fixed" polling variant (a
  restart-on-stop `MediaRecorder` loop with a byte-size threshold, a
  consecutive-failure counter and trimmed transcript appends); modelled
  below in namespace `Grok`.

Both variants are embedded as explicit state machines: React `useRef`
cells become fields of a state structure, and each timer callback or
async completion handler becomes a function from state to state.  The
environment (audio data, network results) is supplied through event
parameters.  Completion handlers of requests that are already in flight
are modelled as separate events (`lateTranscription`, `lateChat`),
because the source checks its guards before `await` and never re-checks
them afterwards.
-/

/-- Type `ConnectionStatus` from `src/types.ts`:
`disconnected`, `connecting`, `connected` or `error`. -/
inductive ConnectionStatus where
  | disconnected
  | connecting
  | connected
  | error
deriving DecidableEq, Repr

/-- One `{role, content}` message of the conversation history
(`conversationHistoryRef` in both hook variants). -/
structure Turn where
  role : String
  content : String
deriving DecidableEq, Repr

/-- JavaScript `String.prototype.trim()`: remove whitespace from both ends.
Defined structurally over the character list so that it evaluates by
kernel reduction. -/
def jsTrim (s : String) : String :=
  ⟨((s.data.dropWhile Char.isWhitespace).reverse.dropWhile Char.isWhitespace).reverse⟩

/-- JavaScript falsiness of the `apiKey : string | undefined` prop: both
`undefined` and the empty string fail the `if (!apiKey)` guard in
`connect` of either variant. -/
def apiKeyFalsy : Option String → Bool
  | none => true
  | some k => decide (k = "")

/-- The append expression of `Grok_useLiveSession.ts` line 139:
`currentTranscriptRef.current += (currentTranscriptRef.current ? space : empty) + newText`. -/
def spaceCat (acc t : String) : String :=
  acc ++ (if acc ≠ "" then " " else "") ++ t

/-- Transcript update of `src/hooks/useLiveSession.ts` lines 79-81: when the
transcription response text is truthy and its trim is truthy, the raw text is
appended after a single space (`currentTranscriptRef.current += space + transcription.text`). -/
def pollingAppendText (acc text : String) : String :=
  if text ≠ "" ∧ jsTrim text ≠ "" then acc ++ " " ++ text else acc

/-- Transcript update of `src/hooks/Grok_useLiveSession.ts` lines 134-139:
the response text is trimmed, texts of trimmed length at most 2 are dropped,
and the trimmed text is appended with a separating space only when the
transcript is non-empty. -/
def grokAppendText (acc text : String) : String :=
  if text ≠ "" ∧ jsTrim text ≠ "" then
    let newText := jsTrim text
    if newText.length > 2 then spaceCat acc newText else acc
  else acc

/-- Transcript accumulated by the original polling variant over a sequence of
transcription response texts, starting from the empty transcript (fresh mount
or just after `resetTranscript()`). -/
def pollingTranscriptAfter (texts : List String) : String :=
  texts.foldl pollingAppendText ""

/-- Transcript accumulated by the Grok variant over a sequence of
transcription response texts, starting from the empty transcript. -/
def grokTranscriptAfter (texts : List String) : String :=
  texts.foldl grokAppendText ""

/-- Spec-side definition, following the words of the specification: the
"space-joined concatenation of all non-empty response texts in arrival order
(each pair of adjacent texts separated by exactly one space, no leading or
trailing space)". -/
def spaceJoined : List String → String
  | [] => ""
  | [t] => t
  | t :: t2 :: ts => t ++ " " ++ spaceJoined (t2 :: ts)

/-- Helper for reasoning about `spaceJoined`: every element prefixed by a
single space. -/
def tailJoin : List String → String
  | [] => ""
  | t :: ts => " " ++ t ++ tailJoin ts

/-- The history cap of `useLiveSession.ts` lines 145-147 and
`Grok_useLiveSession.ts` lines 239-241: keep only the last 20 entries
(JavaScript `slice(-20)`). -/
def trimTo20 (l : List Turn) : List Turn :=
  if l.length > 20 then l.drop (l.length - 20) else l

namespace Polling

/-!
Embedding of `src/hooks/useLiveSession.ts` (the original chunk-polling
variant).  Each `useRef` cell is a field; `uploads` and `chatCalls` count
the transcription and chat-completion requests issued, so that theorems
can speak about "no request is made".  `recording` reflects whether the
`MediaRecorder` is active, `silencePending` whether a silence timeout is
scheduled, and `clientSet` whether `groqClientRef.current` is non-null.
-/

structure State where
  status : ConnectionStatus
  hostInterjection : String
  currentTranscript : String
  isLivePaused : Bool
  conversationHistory : List Turn
  lastTranscriptLength : Nat
  audioChunks : Nat
  clientSet : Bool
  recording : Bool
  silencePending : Bool
  uploads : Nat
  chatCalls : Nat
deriving DecidableEq, Repr

/-- Initial state of a freshly mounted hook (all `useState`/`useRef`
initialisers of lines 11-23). -/
def init : State :=
  { status := .disconnected
    hostInterjection := ""
    currentTranscript := ""
    isLivePaused := false
    conversationHistory := []
    lastTranscriptLength := 0
    audioChunks := 0
    clientSet := false
    recording := false
    silencePending := false
    uploads := 0
    chatCalls := 0 }

/-- Function `connect(stream)`, lines 25-106.  `setupOk` abstracts whether the
`MediaRecorder` construction in the `try` block succeeds. -/
def connect (apiKey : Option String) (setupOk : Bool) (s : State) : State :=
  if apiKeyFalsy apiKey then { s with status := .error }
  else
    let s1 := { s with isLivePaused := false, clientSet := true }
    if setupOk then
      { s1 with audioChunks := 0, recording := true, status := .connected }
    else
      { s1 with status := .error }

/-- Handler `mediaRecorder.ondataavailable`, lines 50-54: a non-empty data event is
queued unless the session is paused. -/
def dataAvailable (size : Nat) (s : State) : State :=
  if size > 0 ∧ s.isLivePaused = false then
    { s with audioChunks := s.audioChunks + 1 }
  else s

/-- The continuation of the transcription interval callback after the
`await` of lines 72-77, i.e. lines 79-95: the source performs no liveness
check here.  A truthy text with truthy trim is appended after a single
space and the silence timeout is (re)armed. -/
def applyTranscription (text : String) (s : State) : State :=
  if text ≠ "" ∧ jsTrim text ≠ "" then
    { s with currentTranscript := s.currentTranscript ++ " " ++ text,
             silencePending := true }
  else s

/-- One firing of the `setInterval` callback of lines 62-100.  The guard of
line 63 is checked before the upload; `outcome` is the result of the
transcription call (`none` models the catch branch of lines 96-98, which
only logs). -/
def transcriptionTick (outcome : Option String) (s : State) : State :=
  if s.audioChunks > 0 ∧ s.isLivePaused = false ∧ s.clientSet = true then
    let s1 := { s with audioChunks := 0, uploads := s.uploads + 1 }
    match outcome with
    | some text => applyTranscription text s1
    | none => s1
  else s

/-- The continuation of `generateHostResponse` after the `await` of
lines 126-131, i.e. lines 133-151: a truthy response sets the
interjection, pushes the user and assistant turns and trims the history
to its last 20 entries.  `none` models the catch branch of lines 152-154. -/
def applyChat (response : Option String) (s : State) : State :=
  match response with
  | none => s
  | some r =>
    if r ≠ "" then
      let pushed := s.conversationHistory ++
        [⟨"user", s.currentTranscript⟩, ⟨"assistant", r⟩]
      { s with hostInterjection := r,
               conversationHistory := trimTo20 pushed }
    else s

/-- Function `generateHostResponse`, lines 108-155: the guard of line 109 returns
early when the client is absent or the session is paused; otherwise a chat
request is issued and its result applied. -/
def generateHostResponse (chatResult : Option String) (s : State) : State :=
  if s.clientSet = false ∨ s.isLivePaused = true then s
  else applyChat chatResult { s with chatCalls := s.chatCalls + 1 }

/-- The silence timeout callback of lines 89-94 firing: if the transcript
has grown past the recorded baseline, `generateHostResponse` runs and then
the baseline is advanced to the current transcript length. -/
def silenceFire (chatResult : Option String) (s : State) : State :=
  if s.silencePending = false then s
  else
    let s1 := { s with silencePending := false }
    if s1.currentTranscript.length > s1.lastTranscriptLength then
      let s2 := generateHostResponse chatResult s1
      { s2 with lastTranscriptLength := s2.currentTranscript.length }
    else s1

/-- Function `disconnect()`, lines 157-175: stops the recorder, cancels the interval
and the silence timeout, clears the chunk queue, the conversation history
and the interjection, and sets the status to `disconnected`.  Neither the
transcript nor the paused flag nor the client reference is touched. -/
def disconnect (s : State) : State :=
  { s with recording := false
           silencePending := false
           audioChunks := 0
           conversationHistory := []
           status := .disconnected
           hostInterjection := "" }

/-- Function `pause()`, lines 177-179: only sets the flag. -/
def pause (s : State) : State :=
  { s with isLivePaused := true }

/-- Function `resume()`, lines 181-183: only clears the flag. -/
def resume (s : State) : State :=
  { s with isLivePaused := false }

/-- Function `resetTranscript()`, lines 185-190. -/
def resetTranscript (s : State) : State :=
  { s with currentTranscript := ""
           conversationHistory := []
           lastTranscriptLength := 0 }

/-- The interjection display timeout of line 150 firing (it clears the
interjection after 8 seconds). -/
def interjectionExpire (s : State) : State :=
  { s with hostInterjection := "" }

/-- Environment events driving the orchestrator.  `lateTranscription` and
`lateChat` are completions of requests that were already in flight when the
event before them ran; the source runs these continuations without
re-checking any guard. -/
inductive Event where
  | connect (apiKey : Option String) (setupOk : Bool)
  | dataAvailable (size : Nat)
  | transcriptionTick (outcome : Option String)
  | lateTranscription (text : String)
  | silenceFire (chatResult : Option String)
  | lateChat (response : Option String)
  | pause
  | resume
  | disconnect
  | resetTranscript
  | interjectionExpire
deriving DecidableEq, Repr

def step : Event → State → State
  | .connect k ok => connect k ok
  | .dataAvailable n => dataAvailable n
  | .transcriptionTick o => transcriptionTick o
  | .lateTranscription t => applyTranscription t
  | .silenceFire r => silenceFire r
  | .lateChat r => applyChat r
  | .pause => pause
  | .resume => resume
  | .disconnect => disconnect
  | .resetTranscript => resetTranscript
  | .interjectionExpire => interjectionExpire

/-- The state reached from a fresh mount by a sequence of events. -/
def run (evs : List Event) : State :=
  evs.foldl (fun s e => step e s) init

end Polling

namespace Grok

/-!
Embedding of `src/hooks/Grok_useLiveSession.ts` (the fixed polling
variant).  The `resume()` of lines 279-297 reads `audioOnlyStreamRef` and
`selectedMimeTypeRef`, references that are never declared or assigned
anywhere in the file (the surrounding comments only describe how they
would be added).  The field `audioOnlyStream` below models that
never-populated reference: it starts as `none` and no operation ever sets
it, so the conditional restart in `resume` can never run.
-/

structure State where
  status : ConnectionStatus
  hostInterjection : String
  currentTranscript : String
  isLivePaused : Bool
  conversationHistory : List Turn
  lastTranscriptLength : Nat
  consecutiveFailures : Nat
  criticalLogs : Nat
  clientSet : Bool
  recording : Bool
  silencePending : Bool
  audioOnlyStream : Option Unit
  uploads : Nat
  chatCalls : Nat
deriving DecidableEq, Repr

/-- Initial state of a freshly mounted hook (lines 11-24). -/
def init : State :=
  { status := .disconnected
    hostInterjection := ""
    currentTranscript := ""
    isLivePaused := false
    conversationHistory := []
    lastTranscriptLength := 0
    consecutiveFailures := 0
    criticalLogs := 0
    clientSet := false
    recording := false
    silencePending := false
    audioOnlyStream := none
    uploads := 0
    chatCalls := 0 }

/-- Function `startRecording`, lines 82-203 (entry guard of line 83 plus the
`mediaRecorder.start()` of line 194; the handlers installed here are
modelled by the `segStop` event below). -/
def startRecording (s : State) : State :=
  if s.isLivePaused = true ∨ s.clientSet = false then s
  else { s with recording := true }

/-- Function `connect(stream)`, lines 26-80.  `hasAudioTrack` abstracts
`stream.getAudioTracks().length > 0`; its absence throws into the catch of
lines 76-79. -/
def connect (apiKey : Option String) (hasAudioTrack : Bool) (s : State) : State :=
  if apiKeyFalsy apiKey then { s with status := .error }
  else
    let s1 := { s with isLivePaused := false, consecutiveFailures := 0,
                       clientSet := true }
    if hasAudioTrack then { startRecording s1 with status := .connected }
    else { s1 with status := .error }

/-- Body of the `onstop` handler acting on one completed segment,
lines 110-179: segments under 5000 bytes are skipped (no upload); on a
successful upload the failure counter resets and trimmed text longer than
2 characters is appended; on a failed upload the counter increments and,
past the high-water mark of 15, the critical-log branch of lines 175-178
logs and resets it. -/
def handleSegment (blobSize : Nat) (outcome : Option String) (s : State) : State :=
  if blobSize < 5000 then s
  else
    let s1 := { s with uploads := s.uploads + 1 }
    match outcome with
    | some text =>
      let s2 := { s1 with consecutiveFailures := 0 }
      if text ≠ "" ∧ jsTrim text ≠ "" then
        let newText := jsTrim text
        if newText.length > 2 then
          { s2 with currentTranscript := spaceCat s2.currentTranscript newText,
                    silencePending := true }
        else s2
      else s2
    | none =>
      let s2 := { s1 with consecutiveFailures := s1.consecutiveFailures + 1 }
      if s2.consecutiveFailures > 15 then
        { s2 with criticalLogs := s2.criticalLogs + 1, consecutiveFailures := 0 }
      else s2

/-- The recorder is inactive once its `onstop` handler runs. -/
def stopRecorder (s : State) : State :=
  { s with recording := false }

/-- Lines 189-191 of the `onstop` handler: restart recording only when not
paused. -/
def restartIfNotPaused (s : State) : State :=
  if s.isLivePaused = false then startRecording s else s

/-- The whole `onstop` handler of lines 104-192: the recorder has stopped;
if chunks arrived and the session is not paused the segment is handled,
and afterwards a fresh capture cycle is started unless paused
(lines 189-191). -/
def segStop (chunksNonempty : Bool) (blobSize : Nat) (outcome : Option String)
    (s : State) : State :=
  restartIfNotPaused (stopRecorder
    (if chunksNonempty = true ∧ s.isLivePaused = false
     then handleSegment blobSize outcome s
     else s))

/-- Continuation of `generateHostResponse` after the `await` of
lines 221-226, i.e. lines 228-244 (same logic as the original variant). -/
def applyChat (response : Option String) (s : State) : State :=
  match response with
  | none => s
  | some r =>
    if r ≠ "" then
      let pushed := s.conversationHistory ++
        [⟨"user", s.currentTranscript⟩, ⟨"assistant", r⟩]
      { s with hostInterjection := r,
               conversationHistory := trimTo20 pushed }
    else s

/-- Function `generateHostResponse`, lines 205-248, with the guard of line 206. -/
def generateHostResponse (chatResult : Option String) (s : State) : State :=
  if s.clientSet = false ∨ s.isLivePaused = true then s
  else applyChat chatResult { s with chatCalls := s.chatCalls + 1 }

/-- The silence timeout callback of lines 147-152 firing; the growth
threshold here is 15 characters past the baseline. -/
def silenceFire (chatResult : Option String) (s : State) : State :=
  if s.silencePending = false then s
  else
    let s1 := { s with silencePending := false }
    if s1.currentTranscript.length > s1.lastTranscriptLength + 15 then
      let s2 := generateHostResponse chatResult s1
      { s2 with lastTranscriptLength := s2.currentTranscript.length }
    else s1

/-- Function `disconnect()`, lines 250-267. -/
def disconnect (s : State) : State :=
  { s with recording := false
           silencePending := false
           conversationHistory := []
           consecutiveFailures := 0
           status := .disconnected
           hostInterjection := "" }

/-- Function `pause()`, lines 269-277: sets the flag, stops an active recording and
cancels the segment-duration timeout. -/
def pause (s : State) : State :=
  { s with isLivePaused := true, recording := false }

/-- Function `resume()`, lines 279-297: clears the flag, resets the failure counter
and then, only when the (never-populated) stream reference is present,
restarts recording. -/
def resume (s : State) : State :=
  let s1 := { s with isLivePaused := false, consecutiveFailures := 0 }
  match s1.audioOnlyStream with
  | some _ => startRecording s1
  | none => s1

/-- Function `resetTranscript()`, lines 299-304. -/
def resetTranscript (s : State) : State :=
  { s with currentTranscript := ""
           conversationHistory := []
           lastTranscriptLength := 0 }

/-- The interjection display timeout of line 243 firing. -/
def interjectionExpire (s : State) : State :=
  { s with hostInterjection := "" }

inductive Event where
  | connect (apiKey : Option String) (hasAudioTrack : Bool)
  | segStop (chunksNonempty : Bool) (blobSize : Nat) (outcome : Option String)
  | silenceFire (chatResult : Option String)
  | lateChat (response : Option String)
  | pause
  | resume
  | disconnect
  | resetTranscript
  | interjectionExpire
deriving DecidableEq, Repr

def step : Event → State → State
  | .connect k a => connect k a
  | .segStop c b o => segStop c b o
  | .silenceFire r => silenceFire r
  | .lateChat r => applyChat r
  | .pause => pause
  | .resume => resume
  | .disconnect => disconnect
  | .resetTranscript => resetTranscript
  | .interjectionExpire => interjectionExpire

/-- The state reached from a fresh mount by a sequence of events. -/
def run (evs : List Event) : State :=
  evs.foldl (fun s e => step e s) init

end Grok

/-- Parameters of a transcription request as sent to
`groqClientRef.current.audio.transcriptions.create`; the audio file itself
is identified by its generated name. -/
structure TranscriptionRequest where
  model : String
  responseFormat : String
  language : Option String
  temperature : Option Nat
  fileName : String
deriving DecidableEq, Repr

/-- File-name choice of `Grok_useLiveSession.ts` lines 117-118
(`mimeType.includes(...)` modelled via `splitOn`). -/
def grokFileName (mimeType : String) : String :=
  if (mimeType.splitOn "wav").length > 1 then "audio.wav"
  else if (mimeType.splitOn "webm").length > 1 then "audio.webm"
  else "audio.ogg"

/-- The request built by `Grok_useLiveSession.ts` lines 123-129 for a
segment recorded with the given mime type: model `whisper-large-v3`,
JSON response, language hint `en`, temperature 0. -/
def grokTranscriptionRequest (mimeType : String) : TranscriptionRequest :=
  { model := "whisper-large-v3"
    responseFormat := "json"
    language := some "en"
    temperature := some 0
    fileName := grokFileName mimeType }

/-- The request built by `useLiveSession.ts` lines 72-77: model
`whisper-large-v3-turbo`, JSON response, language hint `en`, and no
temperature parameter at all. -/
def pollingTranscriptionRequest : TranscriptionRequest :=
  { model := "whisper-large-v3-turbo"
    responseFormat := "json"
    language := some "en"
    temperature := none
    fileName := "audio.webm" }

/-- A session of the original polling variant that connected successfully
and was then disconnected; transcription and chat requests may still be in
flight at this point. -/
def lateDisconnectedState : Polling.State :=
  Polling.run [Polling.Event.connect (some "key") true, Polling.Event.disconnect]

/-- A connected, paused polling-variant session with a pending silence
timer and a transcript that has grown past the (zero) baseline. -/
def pausedPendingState : Polling.State :=
  { Polling.init with
      status := .connected
      clientSet := true
      recording := true
      isLivePaused := true
      silencePending := true
      currentTranscript := "hello there" }

/-- A polling-variant state with a non-empty transcript, for frame
properties of `disconnect`. -/
def transcriptState : Polling.State :=
  { Polling.init with
      status := .connected
      clientSet := true
      currentTranscript := "hello" }

/-- A freshly connected Grok-variant session. -/
def grokConnectedState : Grok.State :=
  Grok.run [Grok.Event.connect (some "key") true]

/-- The Grok-variant session after 15 consecutive transcription failures
(segments of 6000 bytes whose uploads all fail). -/
def grokAfter15Failures : Grok.State :=
  Grok.run (Grok.Event.connect (some "key") true
    :: List.replicate 15 (Grok.Event.segStop true 6000 none))

/-- The Grok-variant session after 16 consecutive transcription failures. -/
def grokAfter16Failures : Grok.State :=
  Grok.run (Grok.Event.connect (some "key") true
    :: List.replicate 16 (Grok.Event.segStop true 6000 none))

/-- The Grok-variant session after connect, pause and resume. -/
def grokAfterPauseResume : Grok.State :=
  Grok.run [Grok.Event.connect (some "key") true, Grok.Event.pause,
    Grok.Event.resume]

/-!
Lemmas about the transcript append logic (claim C1).
-/

lemma spaceJoined_cons (t : String) (ts : List String) :
    spaceJoined (t :: ts) = t ++ tailJoin ts := by
  induction ts generalizing t with
  | nil => simp [spaceJoined, tailJoin]
  | cons t2 ts ih =>
    simp only [spaceJoined, tailJoin, ih t2, String.append_assoc]

lemma spaceCat_of_ne (acc t : String) (h : acc ≠ "") :
    spaceCat acc t = acc ++ " " ++ t := by
  simp [spaceCat, h]

lemma spaceCat_ne_empty_left (acc t : String) (h : acc ≠ "") :
    spaceCat acc t ≠ "" := by
  rw [spaceCat_of_ne acc t h]
  intro he
  have hl := congrArg String.length he
  simp only [String.length_append] at hl
  have h1 : (" " : String).length = 1 := rfl
  have h0 : ("" : String).length = 0 := rfl
  omega

lemma foldl_spaceCat (ts : List String) (acc : String) (h : acc ≠ "") :
    ts.foldl spaceCat acc = acc ++ tailJoin ts := by
  induction ts generalizing acc with
  | nil => simp [tailJoin]
  | cons t ts ih =>
    rw [List.foldl_cons, ih (spaceCat acc t) (spaceCat_ne_empty_left acc t h),
      spaceCat_of_ne acc t h]
    simp [tailJoin, String.append_assoc]

lemma foldl_spaceCat_from_empty (ts : List String) (h : ∀ t ∈ ts, t ≠ "") :
    ts.foldl spaceCat "" = spaceJoined ts := by
  cases ts with
  | nil => rfl
  | cons t ts =>
    have ht : t ≠ "" := h t (List.mem_cons_self t ts)
    have hcat : spaceCat "" t = t := by simp [spaceCat]
    rw [List.foldl_cons, hcat, foldl_spaceCat ts t ht, spaceJoined_cons]

lemma jsTrim_empty : jsTrim "" = "" := rfl

lemma ne_empty_of_two_lt_length (t : String) (h : 2 < t.length) : t ≠ "" := by
  intro he
  subst he
  simp at h

lemma grokAppendText_eq (acc text : String) :
    grokAppendText acc text =
      if 2 < (jsTrim text).length then spaceCat acc (jsTrim text) else acc := by
  unfold grokAppendText
  by_cases h1 : text = ""
  · subst h1
    simp [jsTrim_empty]
  · by_cases h2 : jsTrim text = ""
    · simp [h1, h2]
    · simp [h1, h2, gt_iff_lt]

lemma foldl_grokAppendText (ts : List String) (acc : String) :
    ts.foldl grokAppendText acc =
      ((ts.map jsTrim).filter (fun t => decide (2 < t.length))).foldl spaceCat acc := by
  induction ts generalizing acc with
  | nil => rfl
  | cons t ts ih =>
    rw [List.foldl_cons, grokAppendText_eq]
    by_cases h : 2 < (jsTrim t).length
    · simp [h, ih]
    · simp [h, ih]

/-- Claim C1, counterexample.  The claim fails on both variants: the
original polling variant prepends a space before every appended text, so
a single response `"hello"` yields the transcript `" hello"` (leading
space); the Grok variant drops trimmed texts of length at most 2, so a
single response `"hi"` yields the empty transcript. -/
theorem transcript_not_plain_space_join :
    pollingTranscriptAfter ["hello"] ≠ spaceJoined ["hello"]
  ∧ grokTranscriptAfter ["hi"] ≠ spaceJoined ["hi"] := by
  constructor <;> decide

/-- Claim C1, amended.  For the Grok variant, the transcript accumulated
over any sequence of transcription responses (starting from an empty
transcript) equals the space-joined concatenation — single separating
spaces, no leading or trailing space — of the trimmed response texts that
are longer than 2 characters, in arrival order. -/
theorem grok_transcript_space_join (texts : List String) :
    grokTranscriptAfter texts
      = spaceJoined ((texts.map jsTrim).filter (fun t => decide (2 < t.length))) := by
  unfold grokTranscriptAfter
  rw [foldl_grokAppendText]
  apply foldl_spaceCat_from_empty
  intro t ht
  have hp := List.of_mem_filter ht
  exact ne_empty_of_two_lt_length t (by simpa using hp)

/-- Claim C2.  In the original polling variant, `disconnect()` performs no
liveness bookkeeping that the async continuations consult: a transcription
response and a chat response that were in flight at disconnect time still
mutate the transcript, the interjection and the conversation history when
they complete.  This evaluates the code at the failing input. -/
theorem late_results_mutate_after_disconnect :
    lateDisconnectedState.currentTranscript = ""
  ∧ (Polling.step (.lateTranscription "hello") lateDisconnectedState).currentTranscript
      = " hello"
  ∧ lateDisconnectedState.hostInterjection = ""
  ∧ (Polling.step (.lateChat (some "Tell me more")) lateDisconnectedState).hostInterjection
      = "Tell me more"
  ∧ lateDisconnectedState.conversationHistory = []
  ∧ (Polling.step (.lateChat (some "Tell me more")) lateDisconnectedState).conversationHistory.length
      = 2 := by
  refine ⟨rfl, ?_, rfl, ?_, rfl, ?_⟩ <;> decide

/-!
Lemmas for the conversation-history bound (claim C3).
-/

lemma trimTo20_le (l : List Turn) (h : l.length ≤ 22) :
    (trimTo20 l).length ≤ 20 := by
  unfold trimTo20
  split
  · simp only [List.length_drop]
    omega
  · omega

lemma polling_applyChat_history (r : Option String) (s : Polling.State)
    (h : s.conversationHistory.length ≤ 20) :
    (Polling.applyChat r s).conversationHistory.length ≤ 20 := by
  cases r with
  | none => exact h
  | some resp =>
    by_cases hr : resp ≠ ""
    · refine Eq.mpr ?_ (trimTo20_le
        (s.conversationHistory ++
          [⟨"user", s.currentTranscript⟩, ⟨"assistant", resp⟩])
        (by simp only [List.length_append, List.length_cons, List.length_nil]; omega))
      simp [Polling.applyChat, hr]
    · simpa [Polling.applyChat, hr] using h

lemma polling_genHost_history (r : Option String) (s : Polling.State)
    (h : s.conversationHistory.length ≤ 20) :
    (Polling.generateHostResponse r s).conversationHistory.length ≤ 20 := by
  unfold Polling.generateHostResponse
  split
  · exact h
  · exact polling_applyChat_history r _ h

lemma polling_silenceFire_history (r : Option String) (s : Polling.State)
    (h : s.conversationHistory.length ≤ 20) :
    (Polling.silenceFire r s).conversationHistory.length ≤ 20 := by
  by_cases hp : s.silencePending = false
  · simpa [Polling.silenceFire, hp] using h
  · by_cases hg : s.currentTranscript.length > s.lastTranscriptLength
    · simpa [Polling.silenceFire, hp, hg] using
        polling_genHost_history r { s with silencePending := false } h
    · simpa [Polling.silenceFire, hp, hg] using h

lemma polling_connect_history (k : Option String) (ok : Bool) (s : Polling.State)
    (h : s.conversationHistory.length ≤ 20) :
    (Polling.connect k ok s).conversationHistory.length ≤ 20 := by
  by_cases hc : apiKeyFalsy k = true
  · simpa [Polling.connect, hc] using h
  · by_cases hok : ok = true
    · simpa [Polling.connect, hc, hok] using h
    · simpa [Polling.connect, hc, hok] using h

lemma polling_applyTranscription_history (t : String) (s : Polling.State)
    (h : s.conversationHistory.length ≤ 20) :
    (Polling.applyTranscription t s).conversationHistory.length ≤ 20 := by
  unfold Polling.applyTranscription
  split
  · exact h
  · exact h

lemma polling_tick_history (o : Option String) (s : Polling.State)
    (h : s.conversationHistory.length ≤ 20) :
    (Polling.transcriptionTick o s).conversationHistory.length ≤ 20 := by
  by_cases hg : s.audioChunks > 0 ∧ s.isLivePaused = false ∧ s.clientSet = true
  · cases o with
    | some t =>
      simpa [Polling.transcriptionTick, hg] using
        polling_applyTranscription_history t
          { s with audioChunks := 0, uploads := s.uploads + 1 } h
    | none => simpa [Polling.transcriptionTick, hg] using h
  · simpa [Polling.transcriptionTick, hg] using h

lemma polling_dataAvailable_history (n : Nat) (s : Polling.State)
    (h : s.conversationHistory.length ≤ 20) :
    (Polling.dataAvailable n s).conversationHistory.length ≤ 20 := by
  unfold Polling.dataAvailable
  split
  · exact h
  · exact h

lemma polling_step_history (e : Polling.Event) (s : Polling.State)
    (h : s.conversationHistory.length ≤ 20) :
    (Polling.step e s).conversationHistory.length ≤ 20 := by
  cases e with
  | connect k ok => exact polling_connect_history k ok s h
  | dataAvailable n => exact polling_dataAvailable_history n s h
  | transcriptionTick o => exact polling_tick_history o s h
  | lateTranscription t => exact polling_applyTranscription_history t s h
  | silenceFire r => exact polling_silenceFire_history r s h
  | lateChat r => exact polling_applyChat_history r s h
  | pause => exact h
  | resume => exact h
  | disconnect => exact Nat.zero_le 20
  | resetTranscript => exact Nat.zero_le 20
  | interjectionExpire => exact h

lemma polling_run_history (evs : List Polling.Event) :
    ∀ s : Polling.State, s.conversationHistory.length ≤ 20 →
      (evs.foldl (fun s e => Polling.step e s) s).conversationHistory.length ≤ 20 := by
  induction evs with
  | nil => exact fun s h => h
  | cons e evs ih => exact fun s h => ih _ (polling_step_history e s h)

lemma grok_applyChat_history (r : Option String) (s : Grok.State)
    (h : s.conversationHistory.length ≤ 20) :
    (Grok.applyChat r s).conversationHistory.length ≤ 20 := by
  cases r with
  | none => exact h
  | some resp =>
    by_cases hr : resp ≠ ""
    · refine Eq.mpr ?_ (trimTo20_le
        (s.conversationHistory ++
          [⟨"user", s.currentTranscript⟩, ⟨"assistant", resp⟩])
        (by simp only [List.length_append, List.length_cons, List.length_nil]; omega))
      simp [Grok.applyChat, hr]
    · simpa [Grok.applyChat, hr] using h

lemma grok_genHost_history (r : Option String) (s : Grok.State)
    (h : s.conversationHistory.length ≤ 20) :
    (Grok.generateHostResponse r s).conversationHistory.length ≤ 20 := by
  unfold Grok.generateHostResponse
  split
  · exact h
  · exact grok_applyChat_history r _ h

lemma grok_silenceFire_history (r : Option String) (s : Grok.State)
    (h : s.conversationHistory.length ≤ 20) :
    (Grok.silenceFire r s).conversationHistory.length ≤ 20 := by
  by_cases hp : s.silencePending = false
  · simpa [Grok.silenceFire, hp] using h
  · by_cases hg : s.currentTranscript.length > s.lastTranscriptLength + 15
    · simpa [Grok.silenceFire, hp, hg] using
        grok_genHost_history r { s with silencePending := false } h
    · simpa [Grok.silenceFire, hp, hg] using h

lemma grok_startRecording_history (s : Grok.State) :
    (Grok.startRecording s).conversationHistory = s.conversationHistory := by
  unfold Grok.startRecording
  split
  · rfl
  · rfl

lemma grok_restart_history (s : Grok.State) :
    (Grok.restartIfNotPaused s).conversationHistory = s.conversationHistory := by
  unfold Grok.restartIfNotPaused
  split
  · exact grok_startRecording_history s
  · rfl

lemma grok_handleSegment_history (b : Nat) (o : Option String) (s : Grok.State)
    (h : s.conversationHistory.length ≤ 20) :
    (Grok.handleSegment b o s).conversationHistory.length ≤ 20 := by
  by_cases hb : b < 5000
  · simpa [Grok.handleSegment, hb] using h
  · cases o with
    | some t =>
      by_cases h1 : t ≠ "" ∧ jsTrim t ≠ ""
      · by_cases h2 : (jsTrim t).length > 2
        · simpa [Grok.handleSegment, hb, h1, h2] using h
        · simpa [Grok.handleSegment, hb, h1, h2] using h
      · simpa [Grok.handleSegment, hb, h1] using h
    | none =>
      by_cases hf : s.consecutiveFailures + 1 > 15
      · simpa [Grok.handleSegment, hb, hf] using h
      · simpa [Grok.handleSegment, hb, hf] using h

lemma grok_segStop_history (c : Bool) (b : Nat) (o : Option String)
    (s : Grok.State) (h : s.conversationHistory.length ≤ 20) :
    (Grok.segStop c b o s).conversationHistory.length ≤ 20 := by
  unfold Grok.segStop
  rw [grok_restart_history]
  show (if c = true ∧ s.isLivePaused = false
        then Grok.handleSegment b o s else s).conversationHistory.length ≤ 20
  split
  · exact grok_handleSegment_history b o s h
  · exact h

lemma grok_connect_history (k : Option String) (a : Bool) (s : Grok.State)
    (h : s.conversationHistory.length ≤ 20) :
    (Grok.connect k a s).conversationHistory.length ≤ 20 := by
  by_cases hc : apiKeyFalsy k = true
  · simpa [Grok.connect, hc] using h
  · by_cases ha : a = true
    · simpa [Grok.connect, hc, ha, grok_startRecording_history] using h
    · simpa [Grok.connect, hc, ha] using h

lemma grok_step_history (e : Grok.Event) (s : Grok.State)
    (h : s.conversationHistory.length ≤ 20) :
    (Grok.step e s).conversationHistory.length ≤ 20 := by
  cases e with
  | connect k a => exact grok_connect_history k a s h
  | segStop c b o => exact grok_segStop_history c b o s h
  | silenceFire r => exact grok_silenceFire_history r s h
  | lateChat r => exact grok_applyChat_history r s h
  | pause => exact h
  | resume =>
    show (Grok.resume s).conversationHistory.length ≤ 20
    unfold Grok.resume
    cases hs : s.audioOnlyStream with
    | some u =>
      simpa [hs, grok_startRecording_history] using h
    | none => simpa [hs] using h
  | disconnect => exact Nat.zero_le 20
  | resetTranscript => exact Nat.zero_le 20
  | interjectionExpire => exact h

lemma grok_run_history (evs : List Grok.Event) :
    ∀ s : Grok.State, s.conversationHistory.length ≤ 20 →
      (evs.foldl (fun s e => Grok.step e s) s).conversationHistory.length ≤ 20 := by
  induction evs with
  | nil => exact fun s h => h
  | cons e evs ih => exact fun s h => ih _ (grok_step_history e s h)

/-- Claim C3.  In every state reachable from a fresh mount by any sequence
of events — in particular after any number of successful chat responses,
each of which pushes a user turn and an assistant turn and then trims to
the last 20 entries — the conversation history of either variant holds at
most 20 entries. -/
theorem conversation_history_bounded :
    (∀ evs : List Polling.Event,
      (Polling.run evs).conversationHistory.length ≤ 20)
  ∧ (∀ evs : List Grok.Event,
      (Grok.run evs).conversationHistory.length ≤ 20) :=
  ⟨fun evs => polling_run_history evs Polling.init (Nat.zero_le 20),
   fun evs => grok_run_history evs Grok.init (Nat.zero_le 20)⟩

/-- Claim C4, counterexample.  In a connected, paused session with a
pending silence timer and a transcript (length 11) that outgrew the zero
baseline, the timer elapsing while paused issues no chat call but is not
free of state changes: it advances the silence-comparison baseline
`lastTranscriptLength` from 0 to 11 (the assignment after the
`generateHostResponse` call runs even though the call returned early). -/
theorem paused_timer_updates_baseline :
    pausedPendingState.isLivePaused = true
  ∧ pausedPendingState.silencePending = true
  ∧ pausedPendingState.lastTranscriptLength = 0
  ∧ (Polling.silenceFire none pausedPendingState).lastTranscriptLength = 11
  ∧ (Polling.silenceFire none pausedPendingState).chatCalls = 0 := by
  refine ⟨rfl, rfl, rfl, ?_, ?_⟩ <;> decide

/-- Claim C4, amended.  While the paused flag is set, an elapsing silence
timer issues no chat-completion request and leaves the transcript, the
conversation history, the interjection and the status unchanged; it is
not a complete no-op, however: when the timer was pending and the
transcript grew past the baseline, the baseline is still advanced to the
current transcript length. -/
theorem paused_silence_timer_no_chat (s : Polling.State) (r : Option String)
    (h : s.isLivePaused = true) :
    (Polling.silenceFire r s).chatCalls = s.chatCalls
  ∧ (Polling.silenceFire r s).currentTranscript = s.currentTranscript
  ∧ (Polling.silenceFire r s).conversationHistory = s.conversationHistory
  ∧ (Polling.silenceFire r s).hostInterjection = s.hostInterjection
  ∧ (Polling.silenceFire r s).status = s.status
  ∧ (Polling.silenceFire r s).lastTranscriptLength =
      (if s.silencePending = true ∧ s.currentTranscript.length > s.lastTranscriptLength
       then s.currentTranscript.length
       else s.lastTranscriptLength) := by
  by_cases hp : s.silencePending = false
  · have hp2 : ¬(s.silencePending = true) := by simp [hp]
    simp [Polling.silenceFire, hp, hp2]
  · have hp2 : s.silencePending = true := by
      cases hsp : s.silencePending
      · exact absurd hsp hp
      · rfl
    by_cases hg : s.currentTranscript.length > s.lastTranscriptLength
    · simp [Polling.silenceFire, Polling.generateHostResponse, hp, hp2, hg, h]
    · simp [Polling.silenceFire, Polling.generateHostResponse, hp, hp2, hg]

/-- Claim C4, witness: the amended theorem applied to the concrete paused
state. -/
theorem paused_silence_timer_no_chat_witness :
    (Polling.silenceFire none pausedPendingState).chatCalls = 0
  ∧ (Polling.silenceFire none pausedPendingState).currentTranscript = "hello there" := by
  have h := paused_silence_timer_no_chat pausedPendingState none rfl
  exact ⟨h.1.trans rfl, h.2.1.trans rfl⟩

/-- Claim C5.  A completed segment whose blob is smaller than 5000 bytes
is skipped by the Grok relay: the upload counter and the transcript are
unchanged (only the capture cycle restarts). -/
theorem small_segment_skipped (s : Grok.State) (c : Bool) (size : Nat)
    (o : Option String) (h : size < 5000) :
    (Grok.segStop c size o s).uploads = s.uploads
  ∧ (Grok.segStop c size o s).currentTranscript = s.currentTranscript := by
  have hseg : Grok.handleSegment size o s = s := by
    unfold Grok.handleSegment
    simp [h]
  unfold Grok.segStop
  rw [hseg, ite_self]
  constructor
  · unfold Grok.restartIfNotPaused Grok.startRecording Grok.stopRecorder
    split
    · split
      · rfl
      · rfl
    · rfl
  · unfold Grok.restartIfNotPaused Grok.startRecording Grok.stopRecorder
    split
    · split
      · rfl
      · rfl
    · rfl

/-- Claim C5, witness: a 4000-byte segment in a freshly connected Grok
session is skipped; no upload happens and the transcript stays empty. -/
theorem small_segment_skipped_witness :
    4000 < 5000
  ∧ (Grok.segStop true 4000 (some "hello there friend") grokConnectedState).uploads = 0
  ∧ (Grok.segStop true 4000 (some "hello there friend") grokConnectedState).currentTranscript
      = "" := by
  have h := small_segment_skipped grokConnectedState true 4000
    (some "hello there friend") (by decide)
  exact ⟨by decide, h.1.trans rfl, h.2.trans rfl⟩

/-- Claim C6, counterexample.  After exactly 15 consecutive transcription
failures the counter holds 15 and the critical-log branch has not run: the
guard is `> 15`, so the 15th failure triggers neither the critical log nor
the reset. -/
theorem fifteenth_failure_not_critical :
    grokAfter15Failures.consecutiveFailures = 15
  ∧ grokAfter15Failures.criticalLogs = 0
  ∧ grokAfter15Failures.status = ConnectionStatus.connected := by
  refine ⟨?_, ?_, ?_⟩ <;> decide

/-- Claim C6, amended.  After 16 consecutive transcription failures the
counter has been reset to 0 because the 16th failure — the first to
exceed the high-water mark of 15 — triggered the critical-log branch
(exactly one critical log); no failure is fatal: the status is still
`connected` and the capture loop is still running. -/
theorem sixteen_failures_reset :
    grokAfter16Failures.consecutiveFailures = 0
  ∧ grokAfter16Failures.criticalLogs = 1
  ∧ grokAfter16Failures.status = ConnectionStatus.connected
  ∧ grokAfter16Failures.recording = true := by
  refine ⟨?_, ?_, ?_, ?_⟩ <;> decide

/-- Claim C7, counterexample.  The transcription request of the original
polling relay (`useLiveSession.ts` lines 72-77) carries no temperature
parameter at all, so not every transcription request carries temperature 0. -/
theorem polling_request_no_temperature :
    pollingTranscriptionRequest.temperature = none
  ∧ pollingTranscriptionRequest.temperature ≠ some 0 := by
  exact ⟨rfl, by decide⟩

/-- Claim C7, amended.  Every transcription request carries the fixed
language hint `en`; the Grok relay additionally sets temperature 0 on
every uploaded segment, while the original polling relay omits the
temperature parameter. -/
theorem transcription_request_parameters :
    (∀ mimeType : String,
        (grokTranscriptionRequest mimeType).language = some "en"
      ∧ (grokTranscriptionRequest mimeType).temperature = some 0
      ∧ (grokTranscriptionRequest mimeType).model = "whisper-large-v3")
  ∧ pollingTranscriptionRequest.language = some "en"
  ∧ pollingTranscriptionRequest.temperature = none :=
  ⟨fun _ => ⟨rfl, rfl, rfl⟩, rfl, rfl⟩

/-- Claim C8.  Neither `pause()` nor `resume()` of the Grok variant
changes the status, and a freshly connected session is recording; but
after `pause()` then `resume()` the capture loop is not restarted
(`recording` stays `false` although the paused flag is cleared), because
`resume()` reads stream/mime-type references that are never declared or
populated anywhere in the file. -/
theorem resume_does_not_restart_capture :
    (∀ gs : Grok.State,
        (Grok.pause gs).status = gs.status ∧ (Grok.resume gs).status = gs.status)
  ∧ grokConnectedState.recording = true
  ∧ grokConnectedState.status = ConnectionStatus.connected
  ∧ grokAfterPauseResume.status = ConnectionStatus.connected
  ∧ grokAfterPauseResume.isLivePaused = false
  ∧ grokAfterPauseResume.recording = false := by
  refine ⟨fun gs => ⟨rfl, ?_⟩, by decide, by decide, by decide, by decide, by decide⟩
  cases hs : gs.audioOnlyStream with
  | some u =>
    simp only [Grok.resume, hs, Grok.startRecording]
    split
    · rfl
    · rfl
  | none => simp only [Grok.resume, hs]

/-- Claim C9.  A `connect` call with an absent or empty credential sets
the status to `error` and changes nothing else in either variant: no
client is initialised, no capture starts, nothing is retried. -/
theorem missing_credential_aborts (k : Option String) (ok : Bool)
    (s : Polling.State) (gs : Grok.State) (h : k = none ∨ k = some "") :
    Polling.connect k ok s = { s with status := ConnectionStatus.error }
  ∧ Grok.connect k ok gs = { gs with status := ConnectionStatus.error } := by
  have hf : apiKeyFalsy k = true := by
    rcases h with h | h <;> subst h <;> rfl
  constructor
  · unfold Polling.connect
    rw [if_pos hf]
  · unfold Grok.connect
    rw [if_pos hf]

/-- Claim C9, witness: connecting a fresh mount without a credential. -/
theorem missing_credential_aborts_witness :
    Polling.connect none true Polling.init
      = { Polling.init with status := ConnectionStatus.error }
  ∧ Grok.connect none true Grok.init
      = { Grok.init with status := ConnectionStatus.error } :=
  missing_credential_aborts none true Polling.init Grok.init (Or.inl rfl)

/-!
Lemmas for the disconnect frame property (claim C10): no event other than
`resetTranscript` ever shrinks the transcript.
-/

lemma polling_applyChat_transcript (r : Option String) (s : Polling.State) :
    (Polling.applyChat r s).currentTranscript = s.currentTranscript := by
  cases r with
  | none => rfl
  | some resp =>
    by_cases hr : resp ≠ ""
    · simp [Polling.applyChat, hr]
    · simp [Polling.applyChat, hr]

lemma polling_genHost_transcript (r : Option String) (s : Polling.State) :
    (Polling.generateHostResponse r s).currentTranscript = s.currentTranscript := by
  unfold Polling.generateHostResponse
  split
  · rfl
  · rw [polling_applyChat_transcript]

lemma polling_silenceFire_transcript (r : Option String) (s : Polling.State) :
    (Polling.silenceFire r s).currentTranscript = s.currentTranscript := by
  by_cases hp : s.silencePending = false
  · simp [Polling.silenceFire, hp]
  · by_cases hg : s.currentTranscript.length > s.lastTranscriptLength
    · simp [Polling.silenceFire, hp, hg, polling_genHost_transcript]
    · simp [Polling.silenceFire, hp, hg]

lemma polling_applyTranscription_mono (t : String) (s : Polling.State) :
    s.currentTranscript.length ≤ (Polling.applyTranscription t s).currentTranscript.length := by
  unfold Polling.applyTranscription
  split
  · simp only [String.length_append]
    omega
  · exact Nat.le_refl _

lemma polling_step_transcript_mono (e : Polling.Event) (s : Polling.State)
    (hne : e ≠ Polling.Event.resetTranscript) :
    s.currentTranscript.length ≤ (Polling.step e s).currentTranscript.length := by
  cases e with
  | connect k ok =>
    show s.currentTranscript.length ≤ (Polling.connect k ok s).currentTranscript.length
    by_cases hc : apiKeyFalsy k = true
    · simp [Polling.connect, hc]
    · by_cases hok : ok = true
      · simp [Polling.connect, hc, hok]
      · simp [Polling.connect, hc, hok]
  | dataAvailable n =>
    show s.currentTranscript.length ≤ (Polling.dataAvailable n s).currentTranscript.length
    unfold Polling.dataAvailable
    split
    · exact Nat.le_refl _
    · exact Nat.le_refl _
  | transcriptionTick o =>
    show s.currentTranscript.length ≤ (Polling.transcriptionTick o s).currentTranscript.length
    by_cases hg : s.audioChunks > 0 ∧ s.isLivePaused = false ∧ s.clientSet = true
    · cases o with
      | some t =>
        simpa [Polling.transcriptionTick, hg] using
          polling_applyTranscription_mono t
            { s with audioChunks := 0, uploads := s.uploads + 1 }
      | none => simp [Polling.transcriptionTick, hg]
    · simp [Polling.transcriptionTick, hg]
  | lateTranscription t => exact polling_applyTranscription_mono t s
  | silenceFire r =>
    show s.currentTranscript.length ≤ (Polling.silenceFire r s).currentTranscript.length
    rw [polling_silenceFire_transcript]
  | lateChat r =>
    show s.currentTranscript.length ≤ (Polling.applyChat r s).currentTranscript.length
    rw [polling_applyChat_transcript]
  | pause => exact Nat.le_refl _
  | resume => exact Nat.le_refl _
  | disconnect => exact Nat.le_refl _
  | resetTranscript => exact absurd rfl hne
  | interjectionExpire => exact Nat.le_refl _

/-- Claim C10.  `disconnect()` leaves the accumulated transcript in place
while clearing the pending audio chunks, the conversation history and the
interjection; `resetTranscript()` is what clears the transcript; and no
event other than `resetTranscript` can ever shrink (in particular clear) a
transcript in the original polling variant. -/
theorem disconnect_preserves_transcript :
    (∀ s : Polling.State,
        (Polling.disconnect s).currentTranscript = s.currentTranscript
      ∧ (Polling.disconnect s).audioChunks = 0
      ∧ (Polling.disconnect s).conversationHistory = []
      ∧ (Polling.disconnect s).hostInterjection = ""
      ∧ (Polling.disconnect s).status = ConnectionStatus.disconnected
      ∧ (Polling.resetTranscript s).currentTranscript = "")
  ∧ (∀ gs : Grok.State,
        (Grok.disconnect gs).currentTranscript = gs.currentTranscript
      ∧ (Grok.disconnect gs).conversationHistory = []
      ∧ (Grok.disconnect gs).hostInterjection = ""
      ∧ (Grok.resetTranscript gs).currentTranscript = "")
  ∧ (∀ (s : Polling.State) (e : Polling.Event),
        e ≠ Polling.Event.resetTranscript →
        s.currentTranscript.length ≤ (Polling.step e s).currentTranscript.length) :=
  ⟨fun _ => ⟨rfl, rfl, rfl, rfl, rfl, rfl⟩,
   fun _ => ⟨rfl, rfl, rfl, rfl⟩,
   fun s e hne => polling_step_transcript_mono e s hne⟩

/-- Claim C10, witness: disconnecting a session whose transcript is
`"hello"` keeps that transcript, and `pause` does not shrink it. -/
theorem disconnect_preserves_transcript_witness :
    (Polling.disconnect transcriptState).currentTranscript = "hello"
  ∧ transcriptState.currentTranscript.length ≤
      (Polling.step Polling.Event.pause transcriptState).currentTranscript.length := by
  have h := disconnect_preserves_transcript
  exact ⟨(h.1 transcriptState).1.trans rfl,
    h.2.2 transcriptState Polling.Event.pause (by decide)⟩
